import Mathlib

/-!
Shallow embedding of the structural type model of `eslint-plugin-typelint`
(the `Type` class hierarchy and the doctrine-annotation translator).

The source defines a JavaScript class hierarchy: a base class `Type`
(the invalid/bottom type), and subclasses `AnyType`, `PrimitiveType`,
`AliasType`, `UnionType`, `RecordType`, `FunctionType`.  We embed the
runtime values of this hierarchy as the inductive `JSType`, with one
constructor per class (the base class's own instances, such as
`Type.invalid`, are `JSType.invalid`).

The methods `isOfType` / `isSupertypeOf` are dynamically dispatched and
mutually recursive across objects, and on some inputs they recurse
forever (mutual cross-delegation) or throw a `TypeError`
(`FunctionType.isSupertypeOf` calls the nonexistent methods
`this.getReturnType()` and `otherType.returnType()`).  We therefore model
them with an explicit fuel parameter that counts call-stack depth and an
`Except JsError` result: `.error .typeError` models a thrown `TypeError`,
`.error .dieUnknownType` models the explicit `throw Error(...)` in
`Type.fromDoctrineType`, and `.error .outOfFuel` models exhaustion of the
stack bound (a run that yields `.outOfFuel` at every fuel diverges in JS).
Sibling calls made from the same stack frame receive the same fuel, so the
fuel parameter tracks the JS call stack faithfully.
-/

namespace Typelint

/-- Embedding of the JS `strip` helper: `string.replace(/\s/g, '')`.
`jsWhitespace` enumerates the code points matched by the regexp class
`\s` in JavaScript. -/
def jsWhitespace (c : Char) : Bool :=
  let n := c.toNat
  n == 0x09 || n == 0x0a || n == 0x0b || n == 0x0c || n == 0x0d || n == 0x20 ||
  n == 0xa0 || n == 0x1680 || (0x2000 ≤ n && n ≤ 0x200a) ||
  n == 0x2028 || n == 0x2029 || n == 0x202f || n == 0x205f || n == 0x3000 || n == 0xfeff

/-- Embedding of `function strip(string)` from the source: removes every
whitespace character. -/
def strip (s : String) : String :=
  String.mk (s.data.filter (fun c => ! jsWhitespace c))

/-- One constructor per class of the source hierarchy.  `invalid` is a plain
`new Type()` (the base class, used as the invalid/bottom type), `any` is the
`AnyType` singleton `Type.any`, and the remaining four carry exactly the
fields their constructors store.  `PrimitiveType`'s constructor strips its
argument; the `primitive` field here holds the already-stripped name (see
`mkPrimitiveType`).  JS objects (`record`, `parameterTypes`) are embedded as
association lists with unique keys, written by `regAssign` which mirrors JS
property assignment (overwrite in place, else append). -/
inductive JSType where
  | invalid : JSType
  | any : JSType
  | primitive (primitive : String) : JSType
  | alias (name : String) (target : JSType) : JSType
  | union (members : List JSType) : JSType
  | record (fields : List (String × JSType)) : JSType
  | fn (returnType : JSType) (argumentTypes : List JSType)
       (parameterTypes : List (String × JSType)) : JSType

/-- Embedding of `new PrimitiveType(primitive)`: the constructor stores
`strip(primitive)`. -/
def mkPrimitiveType (primitive : String) : JSType :=
  JSType.primitive (strip primitive)

/-- Lookup in a JS object embedded as an association list
(`object[name]` / `object.hasOwnProperty(name)`). -/
def regLookup : List (String × JSType) → String → Option JSType
  | [], _ => none
  | (k, v) :: rest, name => if k = name then some v else regLookup rest name

/-- Property assignment on a JS object embedded as an association list
(`object[name] = value`): overwrites an existing key in place, otherwise
appends, matching JS enumeration order. -/
def regAssign : List (String × JSType) → String → JSType → List (String × JSType)
  | [], name, value => [(name, value)]
  | (k, v) :: rest, name, value =>
    if k = name then (k, value) :: rest else (k, v) :: regAssign rest name value

/-- The two constructor functions the source ever passes to `instanceOf`:
`PrimitiveType` and `RecordType`. -/
inductive JsClass where
  | primitiveClass : JsClass
  | recordClass : JsClass

/-- Embedding of the raw JS `value instanceof Class` test for the two classes
used by the source.  An `AliasType` object is an instance of neither. -/
def rawInstanceOf : JSType → JsClass → Bool
  | .primitive _, .primitiveClass => true
  | .record _, .recordClass => true
  | _, _ => false

/-- Embedding of the `instanceOf` method: the base class answers
`this instanceof kind`, and `AliasType` overrides it with
`this.type instanceof kind` (note: the raw `instanceof`, not the target's
`instanceOf` method, so an alias whose target is itself an alias answers
false for both classes). -/
def instanceOfM : JSType → JsClass → Bool
  | .alias _ target, k => rawInstanceOf target k
  | t, k => rawInstanceOf t k

/-- Embedding of the `getPrimitive` method: `PrimitiveType` returns its
stored name, every other class (including `AliasType`, which does not
delegate this method) returns `undefined`, modelled as `none`. -/
def getPrimitive : JSType → Option String
  | .primitive p => some p
  | _ => none

/-- Embedding of the `getPropertyNames` method: `RecordType` returns
`Object.keys(this.record)`, `AliasType` delegates to its target, every
other class returns `[]`. -/
def getPropertyNames : JSType → List String
  | .record fields => fields.map Prod.fst
  | .alias _ target => getPropertyNames target
  | _ => []

/-- Embedding of the `getProperty` method: `RecordType` returns the stored
property or `Type.any` when absent, `AnyType` returns `Type.any`,
`AliasType` delegates, and the base class (hence `PrimitiveType`,
`UnionType`, `FunctionType` and the invalid type) returns `Type.invalid`. -/
def getProperty : JSType → String → JSType
  | .record fields, name =>
    match regLookup fields name with
    | some t => t
    | none => .any
  | .alias _ target, name => getProperty target name
  | .any, _ => .any
  | _, _ => .invalid

/-- Embedding of the `getReturn` method: `FunctionType` returns its stored
return type, `AnyType` returns `Type.any`, `AliasType` delegates, the base
class returns `Type.invalid`. -/
def getReturn : JSType → JSType
  | .fn returnType _ _ => returnType
  | .alias _ target => getReturn target
  | .any => .any
  | _ => .invalid

/-- Embedding of the `getArgumentCount` method: `FunctionType` returns
`this.argumentTypes.length`, `AliasType` delegates, everything else
(including `AnyType`) returns `undefined`, modelled as `none`. -/
def getArgumentCount : JSType → Option Nat
  | .fn _ argumentTypes _ => some argumentTypes.length
  | .alias _ target => getArgumentCount target
  | _ => none

/-- Embedding of the `getArgument` method: `FunctionType` returns
`this.argumentTypes[index] || Type.invalid` (out-of-range resolves to the
invalid type), `AnyType` returns `Type.any`, `AliasType` delegates, the
base class returns `Type.invalid`. -/
def getArgument : JSType → Nat → JSType
  | .fn _ argumentTypes _, index => argumentTypes.getD index .invalid
  | .alias _ target, index => getArgument target index
  | .any, _ => .any
  | _, _ => .invalid

/-- Embedding of the `getParameter` method: `FunctionType` returns
`this.parameterTypes[name] || Type.any`, `AliasType` delegates, the base
class (and `AnyType`, which does not override it) returns `Type.invalid`. -/
def getParameter : JSType → String → JSType
  | .fn _ _ parameterTypes, name =>
    match regLookup parameterTypes name with
    | some t => t
    | none => .any
  | .alias _ target, name => getParameter target name
  | _, _ => .invalid

/-- Embedding of the `hasParameter` method: `FunctionType` answers
`this.parameterTypes.hasOwnProperty(name)`, `AliasType` delegates, the base
class answers `false`. -/
def hasParameter : JSType → String → Bool
  | .fn _ _ parameterTypes, name => (regLookup parameterTypes name).isSome
  | .alias _ target, name => hasParameter target name
  | _, _ => false

mutual

/-- Embedding of the `toString` methods.  The base class renders
`'<invalid>'`, `AnyType` renders `'*'`, `PrimitiveType` its stored name,
`AliasType` its alias name (not the target), `UnionType` the members joined
with `'|'`, `RecordType` the properties as name:type pairs joined with
`', '` inside braces, and `FunctionType` renders
`function(arg1,arg2,...):returnType`. -/
def jsToString : JSType → String
  | .invalid => "<invalid>"
  | .any => "*"
  | .primitive p => p
  | .alias name _ => name
  | .union members => String.intercalate "|" (jsToStringList members)
  | .record fields => "\x7b" ++ String.intercalate ", " (jsToStringFields fields) ++ "\x7d"
  | .fn returnType argumentTypes _ =>
    "function(" ++ String.intercalate "," (jsToStringList argumentTypes) ++ "):"
      ++ jsToString returnType

/-- Renders each member of a list of types (JS `Array.map(toString)`). -/
def jsToStringList : List JSType → List String
  | [] => []
  | t :: rest => jsToString t :: jsToStringList rest

/-- Renders each record property as `name:type` (the record fields have
unique keys, so mapping over the list agrees with the source's iteration
over `getPropertyNames` with `getProperty`). -/
def jsToStringFields : List (String × JSType) → List String
  | [] => []
  | (name, t) :: rest => (name ++ ":" ++ jsToString t) :: jsToStringFields rest

end

/-- Error outcomes of running the embedded JS: a thrown `TypeError`, the
explicit `throw Error('Die: Unknown type ...')`, or exhaustion of the
modelled call-stack bound. -/
inductive JsError where
  | typeError : JsError
  | dieUnknownType : JsError
  | outOfFuel : JsError
deriving DecidableEq

/-- Identity test against the `Type.any` singleton (`value === Type.any`):
`AnyType` has exactly one instance in the source, so the test holds exactly
of the `any` variant. -/
def beqAny : JSType → Bool
  | .any => true
  | _ => false

/-- Short-circuit conjunction over a list, mirroring the JS loop
`for (x of xs) if (!f(x)) return false; return true` — a thrown error in
`f x` propagates, and elements after the first `false` are not evaluated. -/
def andAllSC {α : Type} (f : α → Except JsError Bool) : List α → Except JsError Bool
  | [] => .ok true
  | x :: rest =>
    match f x with
    | .ok true => andAllSC f rest
    | .ok false => .ok false
    | .error e => .error e

/-- Short-circuit disjunction over a list, mirroring the JS loop
`for (x of xs) if (f(x)) return true; return false`. -/
def orAnySC {α : Type} (f : α → Except JsError Bool) : List α → Except JsError Bool
  | [] => .ok false
  | x :: rest =>
    match f x with
    | .ok true => .ok true
    | .ok false => orAnySC f rest
    | .error e => .error e

mutual

/-- Embedding of the `isOfType` methods, dispatched on the receiver:
the base class (invalid, and `FunctionType`, which does not override it)
returns `otherType.isSupertypeOf(this)`; `AnyType` returns
`otherType === Type.any`; `PrimitiveType` compares `getPrimitive` values
when the other side passes `instanceOf(PrimitiveType)` and otherwise
returns `otherType.isSupertypeOf(this)`; `AliasType` delegates to its
target; `UnionType` requires every member to accept; `RecordType` rejects
primitives, falls back to `otherType.isSupertypeOf(this)` for
non-records, and otherwise checks every property name of the other
record.  The fuel counts call-stack depth; nested method calls run with
one unit less. -/
def isOfType : Nat → JSType → JSType → Except JsError Bool
  | 0, _, _ => .error .outOfFuel
  | n+1, self, other =>
    match self with
    | .invalid => isSupertypeOf n other self
    | .any => .ok (beqAny other)
    | .primitive _ =>
      if instanceOfM other .primitiveClass then
        .ok (getPrimitive self == getPrimitive other)
      else
        isSupertypeOf n other self
    | .alias _ target => isOfType n target other
    | .union members => andAllSC (fun t => isOfType n t other) members
    | .record _ =>
      if instanceOfM other .primitiveClass then
        .ok false
      else if ! instanceOfM other .recordClass then
        isSupertypeOf n other self
      else
        andAllSC (fun name => isOfType n (getProperty self name) (getProperty other name))
          (getPropertyNames other)
    | .fn _ _ _ => isSupertypeOf n other self

/-- Embedding of the `isSupertypeOf` methods, dispatched on the receiver:
the base class returns `false`; `AnyType` returns `true`; `PrimitiveType`
compares `getPrimitive` values for `instanceOf(PrimitiveType)` others and
otherwise returns `otherType.isOfType(this)`; `AliasType` delegates;
`UnionType` asks whether some member is a supertype; `RecordType` rejects
primitives, falls back to `otherType.isOfType(this)` for non-records, and
otherwise checks every property name of the receiver; `FunctionType`
begins by calling `this.getReturnType()` — a method that does not exist —
so it throws a `TypeError` on every input. -/
def isSupertypeOf : Nat → JSType → JSType → Except JsError Bool
  | 0, _, _ => .error .outOfFuel
  | n+1, self, other =>
    match self with
    | .invalid => .ok false
    | .any => .ok true
    | .primitive _ =>
      if instanceOfM other .primitiveClass then
        .ok (getPrimitive self == getPrimitive other)
      else
        isOfType n other self
    | .alias _ target => isSupertypeOf n target other
    | .union members => orAnySC (fun t => isSupertypeOf n t other) members
    | .record _ =>
      if instanceOfM other .primitiveClass then
        .ok false
      else if ! instanceOfM other .recordClass then
        isOfType n other self
      else
        andAllSC (fun name => isSupertypeOf n (getProperty self name) (getProperty other name))
          (getPropertyNames self)
    | .fn _ _ _ => .error .typeError

end

/-- JS short-circuit disjunction `a || b` at the level of boolean results
with exceptions: a thrown `a` propagates, a true `a` skips `b`. -/
def orE (a b : Except JsError Bool) : Except JsError Bool :=
  match a with
  | .ok true => .ok true
  | .ok false => b
  | .error e => .error e

/-- JS short-circuit conjunction `a && b` at the level of boolean results
with exceptions. -/
def andE (a b : Except JsError Bool) : Except JsError Bool :=
  match a with
  | .ok true => b
  | .ok false => .ok false
  | .error e => .error e

/-- Embedding of the doctrine declared-type expressions the source
dispatches on via `type.type`: the discriminators `NameExpression`,
`UndefinedLiteral`, `UnionType`, `RecordType` and `FunctionType`, plus
`unknownExpr` standing for any other discriminator value (the source never
reads the fields of a `RecordType` node, so that constructor carries
none). -/
inductive DocExpr where
  | nameExpression (name : String) : DocExpr
  | undefinedLiteral : DocExpr
  | unionExpression (elements : List DocExpr) : DocExpr
  | recordExpression : DocExpr
  | functionExpression (params : List DocExpr) (result : Option DocExpr) : DocExpr
  | unknownExpr (discriminator : String) : DocExpr

/-- Embedding of a parsed doctrine tag: `title` is always present, `name`
and `type` are optional (`none` models the JS `undefined`). -/
structure Tag where
  title : String
  name : Option String
  type : Option DocExpr

/-- Embedding of the `rec` argument threaded through the translator:
`some tags` models a record `{tags}`, and `none` models the bare `{}`
object passed by `UnionType.fromDoctrineType`, whose missing `tags` field
makes `rec.tags.length` throw. -/
abbrev DocRec := Option (List Tag)

/-- The typedef registry: a JS object mapping alias names to types. -/
abbrev Registry := List (String × JSType)

/-- Object key used when indexing with a tag's `name`: an undefined JS
`name` coerces to the string key `'undefined'`. -/
def keyOf (tag : Tag) : String := tag.name.getD "undefined"

/-- Applies a translation to an optional declared-type expression: the
source passes `tag.type` straight into a translator that reads
`type.type`, so an absent expression throws a `TypeError`. -/
def trOpt (tr : DocExpr → Except JsError JSType) : Option DocExpr → Except JsError JSType
  | none => .error .typeError
  | some t => tr t

/-- Translates a list of expressions left to right, stopping at the first
thrown error (JS `Array.map` over a throwing function). -/
def translateList (tr : DocExpr → Except JsError JSType) :
    List DocExpr → Except JsError (List JSType)
  | [] => .ok []
  | t :: rest =>
    match tr t with
    | .error e => .error e
    | .ok ty =>
      match translateList tr rest with
      | .error e => .error e
      | .ok tys => .ok (ty :: tys)

/-- The property-collecting loop of `RecordType.fromDoctrineType`: walks the
tag list, translating the declared type of every `property` tag into the
record object under construction. -/
def buildRecordFields (tr : Option DocExpr → Except JsError JSType) :
    List Tag → List (String × JSType) → Except JsError (List (String × JSType))
  | [], acc => .ok acc
  | tag :: rest, acc =>
    if tag.title = "property" then
      match tr tag.type with
      | .error e => .error e
      | .ok ty => buildRecordFields tr rest (regAssign acc (keyOf tag) ty)
    else
      buildRecordFields tr rest acc

/-- The tag loop of `FunctionType.fromDoctrine`: `return`/`returns` tags
overwrite the return type (initially `Type.any`), `param` tags append to
the positional argument list and write the parameter map. -/
def functionTagsLoop (tr : Option DocExpr → Except JsError JSType) :
    List Tag → JSType → List JSType → List (String × JSType) → Except JsError JSType
  | [], returnType, argumentTypes, parameterTypes =>
    .ok (.fn returnType argumentTypes parameterTypes)
  | tag :: rest, returnType, argumentTypes, parameterTypes =>
    if tag.title = "return" ∨ tag.title = "returns" then
      match tr tag.type with
      | .error e => .error e
      | .ok ty => functionTagsLoop tr rest ty argumentTypes parameterTypes
    else if tag.title = "param" then
      match tr tag.type with
      | .error e => .error e
      | .ok ty =>
        functionTagsLoop tr rest returnType (argumentTypes ++ [ty])
          (regAssign parameterTypes (keyOf tag) ty)
    else
      functionTagsLoop tr rest returnType argumentTypes parameterTypes

/-- The tag loop of `Type.fromDoctrine`: the first actionable tag decides
the outcome — a `typedef` tag registers `RecordType.fromDoctrineType` of
its declared shape and yields `Type.any`; a `type` tag yields the
translation of its expression; a `return`/`returns`/`param` tag hands the
whole record to `FunctionType.fromDoctrine`; any other title is skipped;
an exhausted list yields `Type.any`.  The registry is returned alongside
the result because the `typedef` case mutates it. -/
def scanTagsLoop (onTypedef : Option DocExpr → Except JsError JSType)
    (onType : Option DocExpr → Except JsError JSType)
    (onFunction : Unit → Except JsError JSType) :
    List Tag → Registry → Except JsError (JSType × Registry)
  | [], typedefs => .ok (.any, typedefs)
  | tag :: rest, typedefs =>
    if tag.title = "typedef" then
      match onTypedef tag.type with
      | .error e => .error e
      | .ok ty => .ok (.any, regAssign typedefs (keyOf tag) ty)
    else if tag.title = "type" then
      match onType tag.type with
      | .error e => .error e
      | .ok ty => .ok (ty, typedefs)
    else if tag.title = "return" ∨ tag.title = "returns" ∨ tag.title = "param" then
      match onFunction () with
      | .error e => .error e
      | .ok ty => .ok (ty, typedefs)
    else
      scanTagsLoop onTypedef onType onFunction rest typedefs

/-- Embedding of `PrimitiveType.fromDoctrineType`: a `NameExpression`
resolves against the typedef registry — a hit (any registered object is
truthy) yields an `AliasType` wrapping the registered target, a miss
yields a fresh `PrimitiveType`; an `UndefinedLiteral` yields the
`undefined` primitive singleton; anything else yields `new Type()`. -/
def primitiveFromDoctrineType (t : DocExpr) (typedefs : Registry) : JSType :=
  match t with
  | .nameExpression name =>
    match regLookup typedefs name with
    | some typedef => .alias name typedef
    | none => mkPrimitiveType name
  | .undefinedLiteral => mkPrimitiveType "undefined"
  | _ => .invalid

mutual

/-- Embedding of `Type.fromDoctrineType`, the declared-type dispatch:
`FunctionType` nodes translate result (default `Type.any`) then params;
`RecordType` nodes go to `RecordType.fromDoctrineType` (which yields
`Type.invalid` for them, since they are not the `object` name
expression); `UnionType` nodes translate each element against the bare
`{}` record; a `NameExpression` named `object` goes to
`RecordType.fromDoctrineType`, any other name to
`PrimitiveType.fromDoctrineType`, as does `UndefinedLiteral`; every other
discriminator hits the `default` branch, which throws. -/
def fromDoctrineType : Nat → DocExpr → DocRec → Registry → Except JsError JSType
  | 0, _, _, _ => .error .outOfFuel
  | n+1, t, rec, typedefs =>
    match t with
    | .functionExpression params result =>
      match (match result with
             | some r => fromDoctrineType n r rec typedefs
             | none => .ok JSType.any) with
      | .error e => .error e
      | .ok returnType =>
        match translateList (fun e => fromDoctrineType n e rec typedefs) params with
        | .error e => .error e
        | .ok paramTypes => .ok (.fn returnType paramTypes [])
    | .recordExpression => recordFromDoctrineType n .recordExpression rec typedefs
    | .unionExpression elements =>
      match translateList (fun e => fromDoctrineType n e none typedefs) elements with
      | .error e => .error e
      | .ok tys => .ok (.union tys)
    | .nameExpression name =>
      if name = "object" then
        recordFromDoctrineType n (.nameExpression name) rec typedefs
      else
        .ok (primitiveFromDoctrineType (.nameExpression name) typedefs)
    | .undefinedLiteral => .ok (primitiveFromDoctrineType .undefinedLiteral typedefs)
    | .unknownExpr _ => .error .dieUnknownType

/-- Embedding of `RecordType.fromDoctrineType`: only a `NameExpression`
named `object` builds a record, collecting the declared types of the
sibling `property` tags of `rec`; reading `rec.tags` of the bare `{}`
throws; every other expression shape yields `Type.invalid`. -/
def recordFromDoctrineType : Nat → DocExpr → DocRec → Registry → Except JsError JSType
  | 0, _, _, _ => .error .outOfFuel
  | n+1, t, rec, typedefs =>
    match t with
    | .nameExpression name =>
      if name = "object" then
        match rec with
        | none => .error .typeError
        | some tags =>
          match buildRecordFields (trOpt (fun e => fromDoctrineType n e (some tags) typedefs))
              tags [] with
          | .error e => .error e
          | .ok fields => .ok (.record fields)
      else .ok .invalid
    | _ => .ok .invalid

/-- Embedding of `FunctionType.fromDoctrine`: folds the tag list into a
`FunctionType` with return type initially `Type.any`, positional
arguments and named parameters from the `param` tags. -/
def functionFromDoctrine : Nat → List Tag → Registry → Except JsError JSType
  | 0, _, _ => .error .outOfFuel
  | n+1, tags, typedefs =>
    functionTagsLoop (trOpt (fun e => fromDoctrineType n e (some tags) typedefs))
      tags .any [] []

/-- Embedding of `Type.fromDoctrine`: scans the tag list with
`scanTagsLoop`, wiring the `typedef` case to
`RecordType.fromDoctrineType` (registering the result), the `type` case
to `Type.fromDoctrineType`, and the function-shaped case to
`FunctionType.fromDoctrine`. -/
def fromDoctrine : Nat → List Tag → Registry → Except JsError (JSType × Registry)
  | 0, _, _ => .error .outOfFuel
  | n+1, tags, typedefs =>
    scanTagsLoop
      (trOpt (fun e => recordFromDoctrineType n e (some tags) typedefs))
      (trOpt (fun e => fromDoctrineType n e (some tags) typedefs))
      (fun _ => functionFromDoctrine n tags typedefs)
      tags typedefs

end

/-- The record registered by the `Point` typedef used in the alias
round-trip example of the specification. -/
def pointRecord : JSType :=
  JSType.record [("x", JSType.primitive "number"), ("y", JSType.primitive "number")]

/-! ## Helper lemmas -/

/-- On a two-element list, the short-circuit conjunction loop agrees with
the binary JS `&&`. -/
theorem andAllSC_pair {α : Type} (f : α → Except JsError Bool) (a b : α) :
    andAllSC f [a, b] = andE (f a) (f b) := by
  rcases ha : f a with e | x
  · simp [andAllSC, andE, ha]
  · rcases x
    · simp [andAllSC, andE, ha]
    · rcases hb : f b with e' | y
      · simp [andAllSC, andE, ha, hb]
      · rcases y <;> simp [andAllSC, andE, ha, hb]

/-- On a two-element list, the short-circuit disjunction loop agrees with
the binary JS `||`. -/
theorem orAnySC_pair {α : Type} (f : α → Except JsError Bool) (a b : α) :
    orAnySC f [a, b] = orE (f a) (f b) := by
  rcases ha : f a with e | x
  · simp [orAnySC, orE, ha]
  · rcases x
    · rcases hb : f b with e' | y
      · simp [orAnySC, orE, ha, hb]
      · rcases y <;> simp [orAnySC, orE, ha, hb]
    · simp [orAnySC, orE, ha]

/-- Mutual delegation between a primitive and a function type never
terminates: `PrimitiveType.isSupertypeOf` falls back to
`otherType.isOfType(this)`, and `FunctionType` inherits the base
`isOfType`, which calls straight back into
`PrimitiveType.isSupertypeOf`. -/
theorem primFnLoop (p : String) (r : JSType) (args : List JSType)
    (ps : List (String × JSType)) :
    ∀ n, isSupertypeOf n (.primitive p) (.fn r args ps) = .error .outOfFuel
       ∧ isOfType n (.fn r args ps) (.primitive p) = .error .outOfFuel := by
  intro n
  induction n with
  | zero => exact ⟨rfl, rfl⟩
  | succ m ih => exact ⟨ih.2, ih.1⟩

/-- Mutual delegation between a record and the invalid type never
terminates: `RecordType.isSupertypeOf` falls back to
`otherType.isOfType(this)`, and the base `isOfType` calls straight back
into `RecordType.isSupertypeOf`. -/
theorem recordInvalidLoop (fields : List (String × JSType)) :
    ∀ n, isSupertypeOf n (.record fields) .invalid = .error .outOfFuel
       ∧ isOfType n .invalid (.record fields) = .error .outOfFuel := by
  intro n
  induction n with
  | zero => exact ⟨rfl, rfl⟩
  | succ m ih => exact ⟨ih.2, ih.1⟩

/-- The `Type.fromDoctrine` tag loop ignores every tag whose title is not
one of `typedef`, `type`, `return`, `returns`, `param`. -/
theorem scanTagsLoop_append_skip (r t : Option DocExpr → Except JsError JSType)
    (f : Unit → Except JsError JSType) (pre rest : List Tag) (typedefs : Registry)
    (h : ∀ tg ∈ pre, tg.title ≠ "typedef" ∧ tg.title ≠ "type" ∧ tg.title ≠ "return"
      ∧ tg.title ≠ "returns" ∧ tg.title ≠ "param") :
    scanTagsLoop r t f (pre ++ rest) typedefs = scanTagsLoop r t f rest typedefs := by
  induction pre with
  | nil => rfl
  | cons tg pre ih =>
    have htg := h tg (by simp)
    have hrest := ih (fun x hx => h x (by simp [hx]))
    simpa [scanTagsLoop, htg.1, htg.2.1, htg.2.2.1, htg.2.2.2.1, htg.2.2.2.2] using hrest

/-- Assigning a key into a JS object makes a later lookup of that key see
the assigned value (shadowing any earlier value). -/
theorem regLookup_regAssign (reg : List (String × JSType)) (k : String) (v : JSType) :
    regLookup (regAssign reg k v) k = some v := by
  induction reg with
  | nil => simp [regAssign, regLookup]
  | cons kv rest ih =>
    obtain ⟨k', v'⟩ := kv
    by_cases h : k' = k
    · simp [regAssign, regLookup, h]
    · simp [regAssign, regLookup, h, ih]

/-! ## Claim theorems -/

/-- Claim C1 (refuted by the code; the specification states the intent):
`isOfType` and `isSupertypeOf` do NOT always terminate with a boolean.
`FunctionType.isSupertypeOf` calls the nonexistent method
`this.getReturnType()` and therefore throws a `TypeError` on every
pairing (first conjunct); consequently `Type.string.isOfType(f)` for a
function type `f` also throws (second conjunct); and
`Type.string.isSupertypeOf(f)` diverges through the mutual
`isOfType`/`isSupertypeOf` delegation, returning out-of-fuel at every
stack bound (third conjunct). -/
theorem comparisonThrowsAndDiverges :
    (∀ (n : Nat) (other returnType : JSType) (argumentTypes : List JSType)
       (parameterTypes : List (String × JSType)),
       isSupertypeOf (n+1) (.fn returnType argumentTypes parameterTypes) other
         = .error .typeError)
    ∧ (∀ n : Nat, isOfType (n+1+1) (.primitive "string") (.fn .any [] [])
         = .error .typeError)
    ∧ (∀ n : Nat, isSupertypeOf n (.primitive "string") (.fn .any [] [])
         = .error .outOfFuel) :=
  ⟨fun _ _ _ _ _ => rfl, fun _ => rfl, fun n => (primFnLoop "string" .any [] [] n).1⟩

/-- Claim C2, counterexample: the claim asserts `t.isOfType(U)` is false
for every non-Unknown `t`, but for `t = Type.string` the primitive falls
back to `U.isSupertypeOf(t)`, which is true. -/
theorem primitiveIsOfTypeAnyCounterexample :
    isOfType 2 (.primitive "string") JSType.any = .ok true
    ∧ JSType.primitive "string" ≠ JSType.any :=
  ⟨rfl, nofun⟩

/-- Claim C2, amended: for the Unknown type `U`, `U.isSupertypeOf(t)` is
true for every `t`, and `U.isOfType(t)` (the receiver direction, matching
the identity test `otherType === Type.any` in the source) is false unless
`t` is the Unknown type itself.  The direction of the second equation is
the amendment: in the original claim it was written `t.isOfType(U)`,
which the counterexample refutes. -/
theorem anyTypeAsymmetryAmended (t : JSType) (n : Nat) :
    isSupertypeOf (n+1) JSType.any t = .ok true
    ∧ isOfType (n+1) JSType.any t = .ok (beqAny t)
    ∧ (t ≠ JSType.any → isOfType (n+1) JSType.any t = .ok false) := by
  refine ⟨rfl, rfl, fun h => ?_⟩
  cases t
  case any => exact absurd rfl h
  all_goals rfl

/-- Witness for the amended claim C2 at `t = Type.string`. -/
theorem anyTypeAsymmetryAmendedWitness :
    isSupertypeOf 1 JSType.any (JSType.primitive "string") = .ok true
    ∧ isOfType 1 JSType.any (JSType.primitive "string") = .ok false :=
  ⟨(anyTypeAsymmetryAmended (JSType.primitive "string") 0).1,
   (anyTypeAsymmetryAmended (JSType.primitive "string") 0).2.2 nofun⟩

/-- Claim C3: for a union `U = union(A, B)`, `U.isSupertypeOf(x)` is the
short-circuit disjunction `A.isSupertypeOf(x) || B.isSupertypeOf(x)` and
`U.isOfType(x)` is the short-circuit conjunction
`A.isOfType(x) && B.isOfType(x)` (member calls run one stack frame
deeper, hence fuel `n` against `n+1`).  The final two conjuncts exhibit a
concrete input where the two operations disagree, so they are not duals
of each other. -/
theorem unionMemberwiseRules (A B x : JSType) (n : Nat) :
    isSupertypeOf (n+1) (.union [A, B]) x = orE (isSupertypeOf n A x) (isSupertypeOf n B x)
    ∧ isOfType (n+1) (.union [A, B]) x = andE (isOfType n A x) (isOfType n B x)
    ∧ isSupertypeOf 2 (.union [.primitive "string", .primitive "number"])
        (.primitive "string") = .ok true
    ∧ isOfType 2 (.union [.primitive "string", .primitive "number"])
        (.primitive "string") = .ok false :=
  ⟨orAnySC_pair (fun t => isSupertypeOf n t x) A B,
   andAllSC_pair (fun t => isOfType n t x) A B, rfl, rfl⟩

/-- Claim C4: for primitive types built by the `PrimitiveType`
constructor, `isOfType` and `isSupertypeOf` each hold exactly when the
whitespace-stripped names coincide, in both argument orders — equality is
by normalized name value, not instance identity. -/
theorem primitiveNameEquality (a b : String) (n : Nat) :
    (isOfType (n+1) (mkPrimitiveType a) (mkPrimitiveType b) = .ok true ↔ strip a = strip b)
    ∧ (isSupertypeOf (n+1) (mkPrimitiveType a) (mkPrimitiveType b) = .ok true
        ↔ strip a = strip b)
    ∧ (isOfType (n+1) (mkPrimitiveType b) (mkPrimitiveType a) = .ok true ↔ strip a = strip b)
    ∧ (isSupertypeOf (n+1) (mkPrimitiveType b) (mkPrimitiveType a) = .ok true
        ↔ strip a = strip b) := by
  have hOf : ∀ x y : String,
      isOfType (n+1) (JSType.primitive x) (JSType.primitive y)
        = .ok (some x == some y) := fun x y => rfl
  have hSup : ∀ x y : String,
      isSupertypeOf (n+1) (JSType.primitive x) (JSType.primitive y)
        = .ok (some x == some y) := fun x y => rfl
  refine ⟨?_, ?_, ?_, ?_⟩ <;> simp [mkPrimitiveType, hOf, hSup] <;> exact eq_comm

/-- Claim C5: translating a `NameExpression` whose name (other than the
reserved name `object`, which is dispatched to the record translator
first) is registered in the typedef registry yields an `AliasType`
carrying that name and the registered target; its `toString` renders the
alias name, while `isOfType`, `isSupertypeOf` and every structural
accessor delegate to the target unchanged (the comparison methods run the
target one stack frame deeper, hence fuel `m` against `m+1`). -/
theorem aliasTranslationDelegation (name : String) (target : JSType) (rec : DocRec)
    (typedefs : Registry) (n : Nat)
    (hname : name ≠ "object") (hreg : regLookup typedefs name = some target) :
    fromDoctrineType (n+1) (.nameExpression name) rec typedefs = .ok (.alias name target)
    ∧ jsToString (.alias name target) = name
    ∧ (∀ (m : Nat) (x : JSType),
        isOfType (m+1) (.alias name target) x = isOfType m target x)
    ∧ (∀ (m : Nat) (x : JSType),
        isSupertypeOf (m+1) (.alias name target) x = isSupertypeOf m target x)
    ∧ getPropertyNames (.alias name target) = getPropertyNames target
    ∧ (∀ p, getProperty (.alias name target) p = getProperty target p)
    ∧ getReturn (.alias name target) = getReturn target
    ∧ getArgumentCount (.alias name target) = getArgumentCount target
    ∧ (∀ i, getArgument (.alias name target) i = getArgument target i)
    ∧ (∀ p, getParameter (.alias name target) p = getParameter target p)
    ∧ (∀ p, hasParameter (.alias name target) p = hasParameter target p) := by
  refine ⟨?_, rfl, fun m x => rfl, fun m x => rfl, rfl, fun p => rfl, rfl, rfl,
    fun i => rfl, fun p => rfl, fun p => rfl⟩
  simp [fromDoctrineType, hname, primitiveFromDoctrineType, hreg]

/-- Witness for claim C5: the `Point` round trip of the specification —
translating the name `Point` against a registry holding
`Point ↦ {x:number, y:number}` yields an alias rendering as `Point`, and
the alias accepts the `Point` record itself while rejecting
`{x:string, y:number}`, exactly as its target does. -/
theorem aliasTranslationDelegationWitness :
    fromDoctrineType 1 (.nameExpression "Point") none [("Point", pointRecord)]
      = .ok (.alias "Point" pointRecord)
    ∧ jsToString (.alias "Point" pointRecord) = "Point"
    ∧ isOfType 4 (.alias "Point" pointRecord) pointRecord = .ok true
    ∧ isOfType 4 (.alias "Point" pointRecord)
        (.record [("x", JSType.primitive "string"), ("y", JSType.primitive "number")])
        = .ok false :=
  ⟨(aliasTranslationDelegation "Point" pointRecord none [("Point", pointRecord)] 0
      (by decide) rfl).1,
   (aliasTranslationDelegation "Point" pointRecord none [("Point", pointRecord)] 0
      (by decide) rfl).2.1,
   rfl, rfl⟩

/-- Claim C6: when the first actionable tag of a record is a `typedef`
tag, `Type.fromDoctrine` registers the translation of the typedef's
declared shape under the typedef's name and yields the Unknown type.  If
the shape is the `object` name expression, the registered value is a
`RecordType` whose fields are the collected sibling `property` tags
(first conjunct, under the hypothesis that collecting those fields
succeeds); if the shape is any other name expression, the registered
value is the invalid/bottom type (second conjunct). -/
theorem typedefRegistration (pre post : List Tag) (tdName : Option String)
    (shape : DocExpr) (typedefs : Registry) (n : Nat)
    (hpre : ∀ tg ∈ pre, tg.title ≠ "typedef" ∧ tg.title ≠ "type" ∧ tg.title ≠ "return"
      ∧ tg.title ≠ "returns" ∧ tg.title ≠ "param") :
    (∀ fields : List (String × JSType),
      shape = .nameExpression "object" →
      buildRecordFields
          (trOpt (fun e => fromDoctrineType n e
            (some (pre ++ ⟨"typedef", tdName, some shape⟩ :: post)) typedefs))
          (pre ++ ⟨"typedef", tdName, some shape⟩ :: post) []
        = .ok fields →
      fromDoctrine (n+1+1) (pre ++ ⟨"typedef", tdName, some shape⟩ :: post) typedefs
        = .ok (JSType.any, regAssign typedefs (tdName.getD "undefined") (.record fields)))
    ∧ (∀ nm : String, shape = .nameExpression nm → nm ≠ "object" →
      fromDoctrine (n+1+1) (pre ++ ⟨"typedef", tdName, some shape⟩ :: post) typedefs
        = .ok (JSType.any, regAssign typedefs (tdName.getD "undefined") JSType.invalid)) := by
  constructor
  · intro fields hshape hfields
    subst hshape
    simp only [fromDoctrine]
    rw [scanTagsLoop_append_skip _ _ _ pre _ typedefs hpre]
    simp [scanTagsLoop, trOpt, recordFromDoctrineType, hfields, keyOf]
  · intro nm hshape hnm
    subst hshape
    simp only [fromDoctrine]
    rw [scanTagsLoop_append_skip _ _ _ pre _ typedefs hpre]
    simp [scanTagsLoop, trOpt, recordFromDoctrineType, hnm, keyOf]

/-- Witness for claim C6: the specification's example — translating
`[typedef Pair : object, property a : number]` against an empty registry
registers `Pair ↦ Record a:number` and yields the Unknown type. -/
theorem typedefRegistrationWitness :
    fromDoctrine 3 [⟨"typedef", some "Pair", some (.nameExpression "object")⟩,
        ⟨"property", some "a", some (.nameExpression "number")⟩] []
      = .ok (JSType.any, [("Pair", JSType.record [("a", JSType.primitive "number")])]) :=
  (typedefRegistration [] [⟨"property", some "a", some (.nameExpression "number")⟩]
      (some "Pair") (.nameExpression "object") [] 1 (fun _ htg => nomatch htg)).1
    [("a", JSType.primitive "number")] rfl rfl

/-- Claim C7, counterexample: the claim asserts that every non-record
variant's default `getProperty` yields Unknown, but the base class
default (here on a primitive) yields the invalid/bottom type, which is a
different type than Unknown. -/
theorem getPropertyPrimitiveCounterexample :
    getProperty (JSType.primitive "number") "x" = JSType.invalid
    ∧ JSType.invalid ≠ JSType.any :=
  ⟨rfl, nofun⟩

/-- Claim C7, amended: `getProperty` yields Unknown for a record at any
name absent from its map and for the Unknown type itself, and an alias
delegates to its target; but for the remaining non-record variants
(primitive, union, function, invalid) the base-class default yields the
invalid/bottom type, not Unknown. -/
theorem getPropertyDefaults :
    (∀ (fields : List (String × JSType)) (name : String),
      regLookup fields name = none → getProperty (.record fields) name = JSType.any)
    ∧ (∀ name, getProperty JSType.any name = JSType.any)
    ∧ (∀ (aliasName : String) (target : JSType) (name : String),
        getProperty (.alias aliasName target) name = getProperty target name)
    ∧ (∀ p name, getProperty (.primitive p) name = JSType.invalid)
    ∧ (∀ (members : List JSType) (name : String),
        getProperty (.union members) name = JSType.invalid)
    ∧ (∀ (r : JSType) (args : List JSType) (ps : List (String × JSType)) (name : String),
        getProperty (.fn r args ps) name = JSType.invalid)
    ∧ (∀ name, getProperty JSType.invalid name = JSType.invalid) := by
  refine ⟨fun fields name h => ?_, fun name => rfl, fun a t name => rfl,
    fun p name => rfl, fun m name => rfl, fun r a ps name => rfl, fun name => rfl⟩
  simp [getProperty, h]

/-- Witness for the amended claim C7: the empty record has no binding for
`x`, and its `getProperty` yields Unknown there. -/
theorem getPropertyDefaultsWitness :
    getProperty (JSType.record []) "x" = JSType.any :=
  getPropertyDefaults.1 [] "x" rfl

/-- Claim C8, counterexample: the claim asserts the empty record is a
supertype of nothing besides itself, but `RecordType.isSupertypeOf`
iterates the receiver's own (empty) property list, so the empty record is
vacuously a supertype of every record — here of `{x:number}`, a type
different from the empty record. -/
theorem emptyRecordSupertypeCounterexample :
    isSupertypeOf 1 (JSType.record []) (JSType.record [("x", JSType.primitive "number")])
      = .ok true
    ∧ JSType.record [("x", JSType.primitive "number")] ≠ JSType.record [] :=
  ⟨rfl, by simp⟩

/-- Claim C8, amended: the empty record (`Type.object`) is a supertype of
every record type (vacuously — it declares no properties to check); it is
not a supertype of any primitive type nor of the Unknown type; and
against the invalid type the comparison never terminates (out of fuel at
every stack bound). -/
theorem emptyRecordSupertypeAmended (n : Nat) :
    (∀ fields : List (String × JSType),
      isSupertypeOf (n+1) (JSType.record []) (JSType.record fields) = .ok true)
    ∧ (∀ p : String, isSupertypeOf (n+1) (JSType.record []) (JSType.primitive p) = .ok false)
    ∧ isSupertypeOf (n+1+1) (JSType.record []) JSType.any = .ok false
    ∧ isSupertypeOf n (JSType.record []) JSType.invalid = .error .outOfFuel :=
  ⟨fun _ => rfl, fun _ => rfl, rfl, (recordInvalidLoop [] n).1⟩

/-- Claim C9: `Type.fromDoctrineType` on a declared-type expression whose
discriminator is none of the five recognized shapes reaches the `default`
branch, which throws (`Die: Unknown type ...`) — a hard failure
propagated to the caller, never an Unknown or invalid result. -/
theorem unknownExpressionThrows (d : String) (rec : DocRec) (typedefs : Registry) (n : Nat) :
    fromDoctrineType (n+1) (.unknownExpr d) rec typedefs = .error .dieUnknownType :=
  rfl

/-- Claim C10, counterexample: translating a typedef with a non-`object`
shape registers the invalid type, and a later name expression for that
name yields an alias wrapping invalid — but that alias does NOT "accept
nothing": its delegated `isOfType` falls back to
`Type.any.isSupertypeOf`, so it accepts the Unknown type. -/
theorem typedefInvalidAliasCounterexample :
    fromDoctrine 2 [⟨"typedef", some "T", some (.nameExpression "number")⟩] []
      = .ok (JSType.any, [("T", JSType.invalid)])
    ∧ fromDoctrineType 1 (.nameExpression "T") none [("T", JSType.invalid)]
      = .ok (.alias "T" JSType.invalid)
    ∧ isOfType 3 (.alias "T" JSType.invalid) JSType.any = .ok true :=
  ⟨rfl, rfl, rfl⟩

/-- Claim C10, amended: translating a typedef tag whose declared shape is
a non-`object` name expression still registers the invalid/bottom type
under the typedef's name, shadowing any earlier registration; every later
translation of a name expression with that (non-`object`) name yields an
alias wrapping invalid instead of a fresh primitive, because the
registered invalid object is truthy; that alias's `isSupertypeOf` rejects
everything, though its delegated `isOfType` accepts the Unknown type. -/
theorem typedefInvalidRegistrationAmended (tdName nm : String) (post : List Tag)
    (typedefs : Registry) (n : Nat) (hnm : nm ≠ "object") (htd : tdName ≠ "object") :
    fromDoctrine (n+1+1)
        (⟨"typedef", some tdName, some (.nameExpression nm)⟩ :: post) typedefs
      = .ok (JSType.any, regAssign typedefs tdName JSType.invalid)
    ∧ regLookup (regAssign typedefs tdName JSType.invalid) tdName = some JSType.invalid
    ∧ (∀ (rec : DocRec) (m : Nat) (reg2 : Registry),
        regLookup reg2 tdName = some JSType.invalid →
        fromDoctrineType (m+1) (.nameExpression tdName) rec reg2
          = .ok (.alias tdName JSType.invalid))
    ∧ (∀ (m : Nat) (x : JSType),
        isSupertypeOf (m+1+1) (.alias tdName JSType.invalid) x = .ok false)
    ∧ isOfType 3 (.alias tdName JSType.invalid) JSType.any = .ok true := by
  refine ⟨?_, regLookup_regAssign typedefs tdName JSType.invalid,
    fun rec m reg2 hreg => ?_, fun m x => rfl, rfl⟩
  · simp only [fromDoctrine]
    simp [scanTagsLoop, trOpt, recordFromDoctrineType, hnm, keyOf]
  · simp [fromDoctrineType, htd, primitiveFromDoctrineType, hreg]

/-- Witness for the amended claim C10 at a concrete typedef named `S`
with shape `number`. -/
theorem typedefInvalidRegistrationAmendedWitness :
    fromDoctrine 2 [⟨"typedef", some "S", some (.nameExpression "number")⟩] []
      = .ok (JSType.any, [("S", JSType.invalid)])
    ∧ fromDoctrineType 1 (.nameExpression "S") none [("S", JSType.invalid)]
      = .ok (.alias "S" JSType.invalid)
    ∧ isSupertypeOf 2 (.alias "S" JSType.invalid) JSType.any = .ok false :=
  ⟨(typedefInvalidRegistrationAmended "S" "number" [] [] 0 (by decide) (by decide)).1,
   (typedefInvalidRegistrationAmended "S" "number" [] [] 0 (by decide) (by decide)).2.2.1
     none 0 [("S", JSType.invalid)] rfl,
   (typedefInvalidRegistrationAmended "S" "number" [] [] 0 (by decide) (by decide)).2.2.2.1
     0 JSType.any⟩

end Typelint
